import Mathlib

/-!
Verification of the data-normalization pipeline of
`scripts/generate-nj-towns.js` (batch mode) and its single-town variant
(the second script in the same source file): category inference, phone and
address formatting, slug derivation, deduplication, sorting, the
town-list / per-town response handling, and the batch orchestrator
counters.

Modelling conventions:
  * A tag mapping (`el.tags`) is a total function `String → String`; the
    empty string stands for an absent key.  This is faithful because the
    source only ever tests tags with JavaScript truthiness (`if (tags[k])`,
    `tags.email || ...`), and both `undefined` and `""` are falsy.
  * JavaScript strings are modelled as Lean `String`s; the regex-based
    transformations of the source act characterwise and are modelled as
    `List Char` transformations.  `toLowerCase`/`toUpperCase` are modelled
    with `Char.toLower`/`Char.toUpper` (the inputs of interest are ASCII).
  * A JavaScript object literal with duplicate keys keeps the value of the
    last duplicate, so table lookup is modelled as `List.lookup` on the
    reversed association list.
-/

namespace MainStreet

/-- Tag mapping of one fetched OSM element: total map from tag key to tag
value, with `""` standing for an absent key (see module conventions). -/
def Tags : Type := String → String

/-- Priority-ordered tag keys examined by both `getCategory`
implementations (`const tagTypes = ['shop', 'amenity', ...]`). -/
def tagTypes : List String :=
  ["shop", "amenity", "office", "craft", "tourism", "healthcare"]

/-- The `categoryMap` object literal of the batch script
(`generate-nj-towns.js` lines 12-45), in source order. -/
def categoryMap : List (String × String) :=
  [("restaurant", "Restaurant"), ("cafe", "Cafe"), ("bar", "Bar"),
   ("pub", "Pub"), ("fast_food", "Fast Food"), ("bank", "Bank"),
   ("pharmacy", "Pharmacy"), ("hospital", "Hospital"), ("clinic", "Clinic"),
   ("doctors", "Doctor"), ("dentist", "Dentist"),
   ("veterinary", "Veterinary"), ("school", "School"),
   ("library", "Library"), ("post_office", "Post Office"),
   ("fuel", "Gas Station"), ("car_wash", "Car Wash"),
   ("car_repair", "Auto Repair"), ("parking", "Parking"),
   ("place_of_worship", "Place of Worship"), ("theatre", "Theatre"),
   ("cinema", "Cinema"), ("nightclub", "Nightclub"), ("gym", "Gym"),
   ("community_centre", "Community Center"),
   ("social_facility", "Social Services"), ("childcare", "Childcare"),
   ("supermarket", "Supermarket"), ("convenience", "Convenience Store"),
   ("bakery", "Bakery"), ("butcher", "Butcher"),
   ("grocery", "Grocery Store"), ("deli", "Deli"),
   ("clothes", "Clothing Store"), ("shoes", "Shoe Store"),
   ("jewelry", "Jewelry Store"), ("electronics", "Electronics Store"),
   ("hardware", "Hardware Store"), ("furniture", "Furniture Store"),
   ("car", "Car Dealership"), ("car_parts", "Auto Parts"),
   ("bicycle", "Bicycle Shop"), ("beauty", "Beauty Salon"),
   ("hairdresser", "Hair Salon"), ("optician", "Optician"),
   ("florist", "Florist"), ("gift", "Gift Shop"), ("books", "Bookstore"),
   ("alcohol", "Liquor Store"), ("tobacco", "Tobacco Shop"),
   ("laundry", "Laundromat"), ("dry_cleaning", "Dry Cleaning"),
   ("mobile_phone", "Mobile Phone Store"), ("computer", "Computer Store"),
   ("department_store", "Department Store"), ("mall", "Shopping Mall"),
   ("variety_store", "Variety Store"), ("pet", "Pet Store"),
   ("toys", "Toy Store"), ("sports", "Sporting Goods"),
   ("outdoor", "Outdoor Store"), ("music", "Music Store"),
   ("photo", "Photo Store"), ("tattoo", "Tattoo Parlor"),
   ("pawnbroker", "Pawn Shop"), ("lawyer", "Law Office"),
   ("accountant", "Accountant"), ("insurance", "Insurance"),
   ("estate_agent", "Real Estate"),
   ("employment_agency", "Employment Agency"),
   ("travel_agent", "Travel Agency"), ("notary", "Notary"),
   ("tax_advisor", "Tax Advisor"), ("financial", "Financial Services"),
   ("plumber", "Plumber"), ("electrician", "Electrician"),
   ("hvac", "HVAC"), ("carpenter", "Carpenter"), ("painter", "Painter"),
   ("roofer", "Roofer"), ("locksmith", "Locksmith"), ("hotel", "Hotel"),
   ("motel", "Motel"), ("guest_house", "Guest House"),
   ("hostel", "Hostel"), ("museum", "Museum"),
   ("attraction", "Attraction")]

/-- The `categoryMap` object literal of the single-town script (second
script in the source file, lines 382-487), in source order.  It repeats
`car_repair` in its shop section and `hospital`, `clinic`, `doctors`,
`dentist`, `pharmacy` in its healthcare section; in a JavaScript object
literal the later duplicate key definition overwrites the earlier one. -/
def categoryMap2 : List (String × String) :=
  [("restaurant", "Restaurant"), ("cafe", "Cafe"), ("bar", "Bar"),
   ("pub", "Pub"), ("fast_food", "Fast Food"), ("bank", "Bank"),
   ("pharmacy", "Pharmacy"), ("hospital", "Hospital"), ("clinic", "Clinic"),
   ("doctors", "Doctor"), ("dentist", "Dentist"),
   ("veterinary", "Veterinary"), ("school", "School"),
   ("library", "Library"), ("post_office", "Post Office"),
   ("fuel", "Gas Station"), ("car_wash", "Car Wash"),
   ("car_repair", "Auto Repair"), ("parking", "Parking"),
   ("place_of_worship", "Place of Worship"), ("theatre", "Theatre"),
   ("cinema", "Cinema"), ("nightclub", "Nightclub"), ("gym", "Gym"),
   ("community_centre", "Community Center"),
   ("social_facility", "Social Services"), ("childcare", "Childcare"),
   ("supermarket", "Supermarket"), ("convenience", "Convenience Store"),
   ("bakery", "Bakery"), ("butcher", "Butcher"),
   ("grocery", "Grocery Store"), ("deli", "Deli"),
   ("clothes", "Clothing Store"), ("shoes", "Shoe Store"),
   ("jewelry", "Jewelry Store"), ("electronics", "Electronics Store"),
   ("hardware", "Hardware Store"), ("furniture", "Furniture Store"),
   ("car", "Car Dealership"), ("car_repair", "Auto Repair"),
   ("car_parts", "Auto Parts"), ("bicycle", "Bicycle Shop"),
   ("beauty", "Beauty Salon"), ("hairdresser", "Hair Salon"),
   ("optician", "Optician"), ("florist", "Florist"),
   ("gift", "Gift Shop"), ("books", "Bookstore"),
   ("alcohol", "Liquor Store"), ("tobacco", "Tobacco Shop"),
   ("laundry", "Laundromat"), ("dry_cleaning", "Dry Cleaning"),
   ("mobile_phone", "Mobile Phone Store"), ("computer", "Computer Store"),
   ("department_store", "Department Store"), ("mall", "Shopping Mall"),
   ("variety_store", "Variety Store"), ("pet", "Pet Store"),
   ("toys", "Toy Store"), ("sports", "Sporting Goods"),
   ("outdoor", "Outdoor Store"), ("music", "Music Store"),
   ("photo", "Photo Store"), ("tattoo", "Tattoo Parlor"),
   ("pawnbroker", "Pawn Shop"), ("lawyer", "Law Office"),
   ("accountant", "Accountant"), ("insurance", "Insurance"),
   ("estate_agent", "Real Estate"),
   ("employment_agency", "Employment Agency"),
   ("travel_agent", "Travel Agency"), ("notary", "Notary"),
   ("tax_advisor", "Tax Advisor"), ("financial", "Financial Services"),
   ("plumber", "Plumber"), ("electrician", "Electrician"),
   ("hvac", "HVAC"), ("carpenter", "Carpenter"), ("painter", "Painter"),
   ("roofer", "Roofer"), ("locksmith", "Locksmith"), ("hotel", "Hotel"),
   ("motel", "Motel"), ("guest_house", "Guest House"),
   ("hostel", "Hostel"), ("museum", "Museum"),
   ("attraction", "Attraction"), ("hospital", "Hospital"),
   ("clinic", "Clinic"), ("doctors", "Doctor"), ("dentist", "Dentist"),
   ("pharmacy", "Pharmacy")]

/-- Lookup in a JavaScript object literal built from an association list:
the later duplicate key definition overwrites the earlier one, so the
lookup takes the last binding, i.e. the first binding of the reversed
list. -/
def jsLookup (m : List (String × String)) (v : String) : Option String :=
  m.reverse.lookup v

/-- Model of `value.charAt(0).toUpperCase() + value.slice(1).replace(/_/g, ' ')`:
the first character is uppercased (an underscore there is left as is),
and every underscore in the rest of the string becomes a space. -/
def capitalizeRest (v : String) : String :=
  match v.toList with
  | [] => ""
  | c :: rest =>
      String.mk (c.toUpper :: rest.map (fun d => if d = '_' then ' ' else d))

/-- Category derived from one usable tag value in the batch script:
table hit returns the mapped label, otherwise the capitalized form
(`if (categoryMap[value]) return categoryMap[value]; return value.charAt(0)...`). -/
def deriveCat (v : String) : String :=
  match jsLookup categoryMap v with
  | some label => label
  | none => capitalizeRest v

/-- Loop body of the batch-mode `getCategory` (lines 70-81): for each key
in priority order, a falsy (absent/empty) value and the literal value
"yes" are skipped, any other value returns via `deriveCat`. -/
def getCatAux (tags : Tags) : List String → String
  | [] => "Business"
  | k :: ks =>
      let v := tags k
      if v = "" then getCatAux tags ks
      else if v = "yes" then getCatAux tags ks
      else deriveCat v

/-- Batch-mode `getCategory` (lines 70-81): tests for the literal value
"yes" before the table lookup. -/
def getCategory (tags : Tags) : String :=
  getCatAux tags tagTypes

/-- Loop body of the single-town `getCategory` (lines 511-528): for each
key in priority order, a falsy value is skipped; then the table lookup on
`categoryMap2` is tried first, then the "yes" test, then capitalization. -/
def getCatAux2 (tags : Tags) : List String → String
  | [] => "Business"
  | k :: ks =>
      let v := tags k
      if v = "" then getCatAux2 tags ks
      else
        match jsLookup categoryMap2 v with
        | some label => label
        | none => if v = "yes" then getCatAux2 tags ks else capitalizeRest v

/-- Single-town `getCategory` (lines 511-528): performs the table lookup
before the "yes" test. -/
def getCategory2 (tags : Tags) : String :=
  getCatAux2 tags tagTypes

/-- Value of the first priority key whose tag value is usable, i.e.
non-empty and not the literal placeholder "yes".  Characterizes what the
`getCategory` loop actually dispatches on. -/
def firstUsableVal (tags : Tags) : Option String :=
  (tagTypes.map tags).find? (fun v => !(v == "") && !(v == "yes"))

/-- Key of the highest-priority tag key that is present (truthy) at all,
whether or not its value is the placeholder "yes". -/
def firstPresentKey (tags : Tags) : Option String :=
  tagTypes.find? (fun k => !(tags k == ""))

/-- Model of `phone.replace(/[^\d+]/g, '')` in `formatPhone`: keep the
digits and every plus sign (the regex keeps a plus sign anywhere in the
string, not only a leading one). -/
def phoneClean (phone : String) : List Char :=
  phone.toList.filter (fun c => c.isDigit || c = '+')

/-- Model of the ten-character formatting
`(${cleaned.slice(0, 3)}) ${cleaned.slice(3, 6)}-${cleaned.slice(6)}`. -/
def phoneFormat10 (cleaned : List Char) : String :=
  "(" ++ String.mk (cleaned.take 3) ++ ") "
    ++ String.mk ((cleaned.drop 3).take 3) ++ "-"
    ++ String.mk (cleaned.drop 6)

/-- The batch-mode `formatPhone` (lines 83-92): an empty (falsy) input
yields `""`; otherwise the input is cleaned to digits and plus signs; a
cleaned string of length exactly 10 is formatted as (AAA) BBB-CCCC; a
cleaned string of length exactly 11 whose first character is the digit 1
drops that character and is formatted likewise; anything else returns the
original input string.  (The single-town variant at lines 549-563 is
identical except that falsy input yields null.) -/
def formatPhone (phone : String) : String :=
  if phone = "" then ""
  else
    let cleaned := phoneClean phone
    if cleaned.length = 10 then phoneFormat10 cleaned
    else if cleaned.length = 11 ∧ cleaned.head? = some '1' then
      "(" ++ String.mk ((cleaned.drop 1).take 3) ++ ") "
        ++ String.mk ((cleaned.drop 4).take 3) ++ "-"
        ++ String.mk (cleaned.drop 7)
    else phone

/-- Restatement of `formatPhone`, written from the amended claim: the
cleaned string (digits and plus signs, the plus counting toward the
length) is pattern-matched against exactly ten characters, or exactly
eleven characters whose first is the digit 1; every other shape returns
the original input. -/
def phoneSpecAmended (phone : String) : String :=
  if phone = "" then ""
  else
    match phoneClean phone with
    | [a, b, c, d, e, f, g, h, i, j] =>
        String.mk ['(', a, b, c, ')', ' ', d, e, f, '-', g, h, i, j]
    | x :: [a, b, c, d, e, f, g, h, i, j] =>
        if x = '1' then
          String.mk ['(', a, b, c, ')', ' ', d, e, f, '-', g, h, i, j]
        else phone
    | _ => phone

/-- Model of one case-insensitive trailing-suffix strip such as
`name.replace(/ Township$/i, '')`: when the lowercased name ends with the
(lowercase, space-prefixed) suffix, that many trailing characters are
removed, otherwise the name is unchanged. -/
def stripSuffixCI (suf : String) (name : String) : String :=
  if suf.toList.isSuffixOf (name.toList.map Char.toLower) then
    String.mk (name.toList.take (name.toList.length - suf.toList.length))
  else name

/-- The suffix cleanup of `fetchNJTownsList` (lines 154-158):
`.replace(/ Township$/i, '').replace(/ Borough$/i, '').replace(/ City$/i, '')`
applied in that order. -/
def cleanTownName (name : String) : String :=
  stripSuffixCI " city" (stripSuffixCI " borough" (stripSuffixCI " township" name))

/-- Model of `.replace(/[^a-z0-9\s-]/g, '')` applied after lowercasing:
keep lowercase letters, digits, whitespace and hyphens. -/
def slugAllowed (c : Char) : Bool :=
  (('a' ≤ c ∧ c ≤ 'z') : Bool) || c.isDigit || c.isWhitespace || c = '-'

/-- Model of `.replace(/\s+/g, '-')`: every maximal run of whitespace
characters becomes a single hyphen. -/
def collapseWs : List Char → List Char
  | [] => []
  | [c] => if c.isWhitespace then ['-'] else [c]
  | c₁ :: c₂ :: rest =>
      if c₁.isWhitespace && c₂.isWhitespace then collapseWs (c₂ :: rest)
      else (if c₁.isWhitespace then '-' else c₁) :: collapseWs (c₂ :: rest)

/-- Model of the hyphen-collapsing replace (regex: one or more hyphens,
global, replaced by a single hyphen): every maximal run of hyphens
becomes a single hyphen. -/
def collapseDash : List Char → List Char
  | [] => []
  | [c] => [c]
  | c₁ :: c₂ :: rest =>
      if c₁ = '-' && c₂ = '-' then collapseDash (c₂ :: rest)
      else c₁ :: collapseDash (c₂ :: rest)

/-- Model of the JavaScript `.trim()`: remove whitespace (only
whitespace) from both ends of the string. -/
def trimChars (l : List Char) : List Char :=
  ((l.dropWhile Char.isWhitespace).reverse.dropWhile Char.isWhitespace).reverse

/-- The `slugify` function (lines 62-68): lowercase, strip characters
outside lowercase letters / digits / whitespace / hyphen, collapse
whitespace runs to one hyphen, collapse hyphen runs to one hyphen, and
finally `.trim()`.  Note the trim step runs after every whitespace
character has already been replaced by a hyphen. -/
def slugify (name : String) : String :=
  String.mk (trimChars (collapseDash (collapseWs
    ((name.toList.map Char.toLower).filter slugAllowed))))

/-- Restatement of `slugify` without the final trim step, used to state
that the trim is a no-op: lowercase, keep allowed characters, collapse
whitespace runs to a hyphen, collapse hyphen runs to one. -/
def slugifyNoTrim (name : String) : String :=
  String.mk (collapseDash (collapseWs
    ((name.toList.map Char.toLower).filter slugAllowed)))

/-- The slug assembled in `fetchNJTownsList` (line 163):
`slugify(cleanName) + '-nj'`. -/
def townSlug (name : String) : String :=
  slugify (cleanTownName name) ++ "-nj"

/-- Business record produced by the per-town extraction.  The constant
extensibility fields of the source (`rating: null`, `review_count: null`,
`claimed: false`, `featured: false`) are omitted: the source always emits
the same constants for them and no claim mentions them. -/
structure Business where
  name : String
  category : String
  address : String
  phone : String
  email : String
  website : String
  hours : String
deriving DecidableEq

/-- Deduplication key used by the source:
`b.name === business.name && b.address === business.address`. -/
def bkey (b : Business) : String × String :=
  (b.name, b.address)

/-- Append a string to the last element of a list of strings, modelling
`parts[parts.length - 1] += ...` (the empty list is returned unchanged;
the source always has at least the town and state segments). -/
def appendToLast (s : String) : List String → List String
  | [] => []
  | [x] => [x ++ s]
  | x :: xs => x :: appendToLast s xs

/-- The address construction of the batch script (lines 214-224), equal
to the single-town `formatAddress` (lines 530-547) with the town name as
a parameter: first segment house number plus street (both present), or
the street alone, or nothing; then the town display name and "NJ"; a
present postcode is appended to the last segment; segments are joined
with ", ". -/
def formatAddress (town : String) (tags : Tags) : String :=
  let parts : List String :=
    if tags "addr:housenumber" ≠ "" ∧ tags "addr:street" ≠ "" then
      [tags "addr:housenumber" ++ " " ++ tags "addr:street", town, "NJ"]
    else if tags "addr:street" ≠ "" then [tags "addr:street", town, "NJ"]
    else [town, "NJ"]
  let parts :=
    if tags "addr:postcode" ≠ "" then
      appendToLast (" " ++ tags "addr:postcode") parts
    else parts
  String.intercalate ", " parts

/-- The per-element mapping of the batch script (lines 212-239): one raw
tag mapping becomes one `Business` record. -/
def mapElement (town : String) (tags : Tags) : Business :=
  { name := tags "name"
    category := getCategory tags
    address := formatAddress town tags
    phone := formatPhone (tags "phone")
    email := if tags "email" ≠ "" then tags "email" else tags "contact:email"
    website := if tags "website" ≠ "" then tags "website" else tags "contact:website"
    hours := tags "opening_hours" }

/-- The batch-mode postcode filter (lines 207-211): a record with a
postcode is kept only when the postcode starts with "08" or "07"; a
record with no postcode is kept unconditionally.  `startsWith` for the
two-character prefix is modelled as equality on the first two
characters. -/
def postcodeOk (tags : Tags) : Bool :=
  let pc := tags "addr:postcode"
  if pc = "" then true
  else pc.toList.take 2 = ['0', '8'] || pc.toList.take 2 = ['0', '7']

/-- Model of the duplicate-removing filter
`.filter((business, index, self) => index === self.findIndex(b => ...))`:
an element passes exactly when its index equals the index of the first
element with the same key, i.e. when no earlier element has its key.  The
`seen` accumulator carries the keys of the elements already passed. -/
def dedupFirstBy {α β : Type} [DecidableEq β] (key : α → β) :
    List β → List α → List α
  | _, [] => []
  | seen, x :: xs =>
      if key x ∈ seen then dedupFirstBy key seen xs
      else x :: dedupFirstBy key (key x :: seen) xs

/-- The comparator of the business sort (lines 243-247): compare the
categories with `localeCompare`; on a tie compare the names.  The
locale-aware comparison is kept abstract as an integer-valued comparator
`cmp`. -/
def bizCmp (cmp : String → String → Int) (a b : Business) : Int :=
  let catCompare := cmp a.category b.category
  if catCompare ≠ 0 then catCompare else cmp a.name b.name

/-- Boolean ordering derived from the sort comparator: `a` may precede
`b` when the comparator is nonpositive (what a comparator-based
ascending sort establishes between adjacent elements). -/
def bizLe (cmp : String → String → Int) (a b : Business) : Bool :=
  bizCmp cmp a b ≤ 0

/-- Model of `Array.prototype.sort` with the business comparator: a
sorting algorithm driven by the comparator.  (With a consistent
comparator the ECMAScript sort is exactly some comparator-driven sort;
mergesort is what the major engines use.) -/
def sortBusinesses (cmp : String → String → Int) (l : List Business) :
    List Business :=
  l.mergeSort (bizLe cmp)

/-- Model of `localeCompare` used where a concrete comparator is needed
(the singleton and empty lists of the concrete claims never invoke it):
locale collation is modelled as code-point comparison. -/
def localeCmpM (a b : String) : Int :=
  match compare a b with
  | Ordering.lt => -1
  | Ordering.eq => 0
  | Ordering.gt => 1

/-- The per-town normalization pipeline of `fetchBusinessesForTown`
(lines 205-249), comparator abstracted: keep elements with a name, apply
the postcode filter, map to `Business` records, drop later duplicates by
(name, address), sort by (category, name). -/
def processElementsWith (cmp : String → String → Int) (town : String)
    (els : List Tags) : List Business :=
  sortBusinesses cmp
    (dedupFirstBy bkey []
      (((els.filter (fun t => !(t "name" == ""))).filter postcodeOk).map
        (mapElement town)))

/-- The per-town normalization pipeline with the modelled locale
comparator. -/
def processElements (town : String) (els : List Tags) : List Business :=
  processElementsWith localeCmpM town els

/-- Raw OSM element of the town-list query: its tag mapping, id and
entity type (`out tags` output). -/
structure OsmElement where
  tags : Tags
  osmId : Int
  osmType : String

/-- Town record assembled by `fetchNJTownsList` (lines 160-167).  The
`population` field keeps the raw tag value (absent as `none`); the
numeric `parseInt` conversion is irrelevant to every claim and is not
modelled. -/
structure Town where
  name : String
  displayName : String
  slug : String
  population : Option String
  osmId : Int
  osmType : String

/-- The element-to-town mapping of `fetchNJTownsList` (lines 151-168). -/
def townFromElement (el : OsmElement) : Town :=
  let name := el.tags "name"
  let cleanName := cleanTownName name
  { name := name
    displayName := cleanName
    slug := slugify cleanName ++ "-nj"
    population :=
      if el.tags "population" ≠ "" then some (el.tags "population") else none
    osmId := el.osmId
    osmType := el.osmType }

/-- The town-list pipeline of `fetchNJTownsList` (lines 149-173): keep
elements with a name tag, map to towns, drop later duplicates by slug,
sort by display name with `localeCompare` (modelled comparator). -/
def townsPipeline (els : List OsmElement) : List Town :=
  (dedupFirstBy Town.slug []
      ((els.filter (fun el => !(el.tags "name" == ""))).map townFromElement)
    ).mergeSort (fun a b => localeCmpM a.displayName b.displayName ≤ 0)

/-- The town-list discovery stage `fetchNJTownsList` applied to an
already-parsed response: `if (!data.elements || data.elements.length === 0)
throw new Error('No towns found in NJ')` (lines 145-147), otherwise the
town-list pipeline runs.  A missing `elements` field is `none`. -/
def fetchNJTownsList (resp : Option (List OsmElement)) :
    Except String (List Town) :=
  match resp with
  | none => Except.error "No towns found in NJ"
  | some els =>
      if els.length = 0 then Except.error "No towns found in NJ"
      else Except.ok (townsPipeline els)

/-- The per-town extraction stage `fetchBusinessesForTown` applied to an
already-parsed response: `if (!data.elements) return []` (lines 201-203),
otherwise the normalization pipeline runs (an empty element list flows
through the pipeline and yields the empty business list). -/
def fetchBusinessesForTown (town : Town) (resp : Option (List Tags)) :
    List Business :=
  match resp with
  | none => []
  | some els => processElements town.displayName els

/-- Outcome of `processTown` for one town (lines 283-302): skipped
(artifact already exists), success with a number of businesses found, or
a caught per-town error. -/
inductive TownOutcome where
  | skipped
  | success (businesses : Nat)
  | failure
deriving DecidableEq

/-- The four summary counters of `main` (lines 326-329). -/
structure BatchCounters where
  processed : Nat
  skipped : Nat
  businesses : Nat
  errors : Nat
deriving DecidableEq

/-- The counter update of the batch loop (lines 342-349):
`if (result.skipped) totalSkipped++; else if (result.error) totalErrors++;
else { totalProcessed++; totalBusinesses += result.businesses; }`. -/
def stepCounters (c : BatchCounters) : TownOutcome → BatchCounters
  | TownOutcome.skipped => { c with skipped := c.skipped + 1 }
  | TownOutcome.failure => { c with errors := c.errors + 1 }
  | TownOutcome.success n =>
      { c with processed := c.processed + 1, businesses := c.businesses + n }

/-- The batch loop accumulation over all towns in order (the grouping in
batches of 20 affects only pacing and banner lines, not the counters). -/
def runBatch (outs : List TownOutcome) : BatchCounters :=
  outs.foldl stepCounters ⟨0, 0, 0, 0⟩

/-- The console line `processTown` emits for one town (lines 288, 296,
299). -/
def townLine (name : String) : TownOutcome → String
  | TownOutcome.skipped => "Skipping " ++ name ++ " (already exists)"
  | TownOutcome.success n =>
      "Processing " ++ name ++ "... " ++ toString n ++ " businesses found"
  | TownOutcome.failure => "Error processing " ++ name

/-- The summary block printed unconditionally after the batch loop
(lines 362-368), reporting all five figures. -/
def summaryLines (totalTowns : Nat) (c : BatchCounters) : List String :=
  ["========== SUMMARY ==========",
   "Total towns in NJ: " ++ toString totalTowns,
   "Towns processed: " ++ toString c.processed,
   "Towns skipped (already exist): " ++ toString c.skipped,
   "Towns with errors: " ++ toString c.errors,
   "Total businesses found: " ++ toString c.businesses,
   "=============================="]

/-- The observable run of the batch orchestrator on a town list with
given per-town outcomes: the per-town log lines in order, followed by the
summary block (batch banner and pause lines omitted). -/
def mainLog (townOutcomes : List (String × TownOutcome)) : List String :=
  (townOutcomes.map (fun p => townLine p.1 p.2))
    ++ summaryLines townOutcomes.length (runBatch (townOutcomes.map Prod.snd))

/-- Ascending (category, name) ordering between two business records
under the abstract comparator: the category strictly precedes, or the
categories tie and the name does not come later. -/
def catNameLe (cmp : String → String → Int) (a b : Business) : Prop :=
  cmp a.category b.category < 0 ∨
    (cmp a.category b.category = 0 ∧ cmp a.name b.name ≤ 0)

/-- Number of businesses a success outcome contributes to the
total-businesses counter (skips and errors contribute nothing). -/
def outcomeBusinesses : TownOutcome → Nat
  | TownOutcome.success n => n
  | _ => 0

/-- Concrete town-list element used by the C8 witness. -/
def sampleTownElement : OsmElement :=
  { tags := fun k => if k = "name" then "Trenton" else ""
    osmId := 1
    osmType := "relation" }

/-- Concrete tag mapping for the C3 counterexample: the highest-priority
present key (shop) is "yes" and a lower-priority key (amenity) holds the
non-"yes" value "business". -/
def tagsYesBusiness : Tags := fun k =>
  if k = "shop" then "yes" else if k = "amenity" then "business" else ""

/-- Concrete tag mapping witnessing the amended C3 theorem: shop = "yes",
amenity = "deli". -/
def tagsYesDeli : Tags := fun k =>
  if k = "shop" then "yes" else if k = "amenity" then "deli" else ""

/-- Concrete tag mapping for the C4 counterexample: a single priority key
with the unrecognized value "_foo" beginning with an underscore. -/
def tagsUnderscore : Tags := fun k => if k = "shop" then "_foo" else ""

/-- The business name of the end-to-end example of the spec (a deli name
containing an apostrophe, built explicitly from its characters). -/
def joeName : String :=
  String.mk ['J', 'o', 'e', Char.ofNat 39, 's', ' ', 'D', 'e', 'l', 'i']

/-- The raw element of the end-to-end example: the deli with house
number 12, street "Main St", postcode "08608" and phone "6095551234". -/
def joeTags : Tags := fun k =>
  if k = "name" then joeName
  else if k = "shop" then "deli"
  else if k = "addr:housenumber" then "12"
  else if k = "addr:street" then "Main St"
  else if k = "addr:postcode" then "08608"
  else if k = "phone" then "6095551234"
  else ""

/-- The business record the end-to-end example must produce. -/
def joeBusiness : Business :=
  { name := joeName
    category := "Deli"
    address := "12 Main St, Trenton, NJ 08608"
    phone := "(609) 555-1234"
    email := ""
    website := ""
    hours := "" }

/-- First record of the C6 witness: the deli at its address. -/
def bizDupA : Business :=
  { name := "Joe", category := "Deli", address := "1 Main, Trenton, NJ",
    phone := "p1", email := "", website := "", hours := "" }

/-- Second record of the C6 witness: identical name and address, phone
differs, so it is a later duplicate. -/
def bizDupB : Business :=
  { name := "Joe", category := "Deli", address := "1 Main, Trenton, NJ",
    phone := "p2", email := "", website := "", hours := "" }

/-- Third record of the C6 witness: identical name but different
address. -/
def bizDiff : Business :=
  { name := "Joe", category := "Deli", address := "2 Oak, Trenton, NJ",
    phone := "", email := "", website := "", hours := "" }

/-- Helper: the source `formatPhone` agrees everywhere with the
pattern-matching restatement of the amended phone claim. -/
theorem formatPhone_eq_phoneSpecAmended (p : String) :
    formatPhone p = phoneSpecAmended p := by
  by_cases hp : p = ""
  · simp [formatPhone, phoneSpecAmended, hp]
  · simp only [formatPhone, phoneSpecAmended, if_neg hp]
    generalize phoneClean p = c
    rcases c with _ | ⟨a1, _ | ⟨a2, _ | ⟨a3, _ | ⟨a4, _ | ⟨a5, _ | ⟨a6, _ | ⟨a7, _ | ⟨a8, _ | ⟨a9, _ | ⟨a10, _ | ⟨a11, _ | ⟨a12, rest⟩⟩⟩⟩⟩⟩⟩⟩⟩⟩⟩⟩
    · rfl
    · rfl
    · rfl
    · rfl
    · rfl
    · rfl
    · rfl
    · rfl
    · rfl
    · rfl
    · rfl
    · by_cases h1 : a1 = '1'
      · subst h1; rfl
      · simp [h1]
    · split
      · rename_i hlen
        exfalso; simp only [List.length_cons] at hlen; omega
      · split
        · rename_i hcond
          exfalso
          have hlen := hcond.1
          simp only [List.length_cons] at hlen; omega
        · rfl

/-- Claim C1, counterexample: the claim requires that an input from which
10 digits remain is formatted, naming "+6095551234" explicitly; the code
keeps the plus sign in the cleaned string, so its length is 11, it does
not start with the digit 1, and the original input is returned
unmodified instead of "(609) 555-1234". -/
theorem phone_plus_counterexample :
    formatPhone "+6095551234" = "+6095551234" ∧
      ("+6095551234" : String) ≠ "(609) 555-1234" := by
  constructor
  · decide
  · decide

/-- Claim C1 as amended: stripping keeps the digits and every plus sign,
and the 10/11 length tests count the kept plus signs too; a cleaned
string of exactly 10 characters is formatted as (AAA) BBB-CCCC, one of
exactly 11 characters starting with the digit 1 drops that digit and is
formatted the same way, and any other input is returned unmodified — so
"609-555-1234" and "16095551234" format to "(609) 555-1234", while
"555-1234" and "+6095551234" are returned unchanged. -/
theorem phone_amended :
    (∀ p, formatPhone p = phoneSpecAmended p) ∧
      formatPhone "609-555-1234" = "(609) 555-1234" ∧
      formatPhone "16095551234" = "(609) 555-1234" ∧
      formatPhone "555-1234" = "555-1234" ∧
      formatPhone "+6095551234" = "+6095551234" :=
  ⟨formatPhone_eq_phoneSpecAmended, by decide, by decide, by decide, by decide⟩

/-- Helper: every character emitted by the whitespace-collapsing step is
a non-whitespace character (whitespace runs become hyphens). -/
theorem collapseWs_no_ws (l : List Char) :
    ∀ c ∈ collapseWs l, c.isWhitespace = false := by
  induction l with
  | nil => intro x hx; simp [collapseWs] at hx
  | cons c cs ih =>
    cases cs with
    | nil =>
      intro x hx
      simp only [collapseWs] at hx
      split at hx
      · simp only [List.mem_singleton] at hx
        subst hx; decide
      · simp only [List.mem_singleton] at hx
        subst hx
        rename_i h
        simpa using h
    | cons c2 rest =>
      intro x hx
      simp only [collapseWs] at hx
      split at hx
      · exact ih x hx
      · rcases List.mem_cons.mp hx with h | h
        · subst h
          split
          · decide
          · rename_i h2
            simpa using h2
        · exact ih x h

/-- Helper: the hyphen-collapsing step only keeps characters of its
input. -/
theorem collapseDash_mem (l : List Char) :
    ∀ x ∈ collapseDash l, x ∈ l := by
  induction l with
  | nil => intro x hx; simp [collapseDash] at hx
  | cons c cs ih =>
    cases cs with
    | nil =>
      intro x hx
      simpa [collapseDash] using hx
    | cons c2 rest =>
      intro x hx
      simp only [collapseDash] at hx
      split at hx
      · exact List.mem_cons_of_mem _ (ih x hx)
      · rcases List.mem_cons.mp hx with h | h
        · subst h; exact List.mem_cons_self _ _
        · exact List.mem_cons_of_mem _ (ih x h)

/-- Helper: trimming (which strips only whitespace) leaves a list without
whitespace characters unchanged. -/
theorem trimChars_eq_self (l : List Char)
    (h : ∀ c ∈ l, c.isWhitespace = false) : trimChars l = l := by
  have h1 : l.dropWhile Char.isWhitespace = l := by
    cases l with
    | nil => rfl
    | cons c cs => simp [List.dropWhile_cons, h c (by simp)]
  rw [trimChars, h1]
  have h2 : l.reverse.dropWhile Char.isWhitespace = l.reverse := by
    cases hr : l.reverse with
    | nil => rfl
    | cons c cs =>
      have hc : c ∈ l := by
        rw [← List.mem_reverse, hr]; simp
      simp [List.dropWhile_cons, h c hc]
  rw [h2, List.reverse_reverse]

/-- Helper: the final `.trim()` of `slugify` is a no-op, because it only
strips whitespace and runs after every whitespace character has been
replaced by a hyphen. -/
theorem slugify_eq_noTrim (name : String) : slugify name = slugifyNoTrim name := by
  unfold slugify slugifyNoTrim
  congr 1
  apply trimChars_eq_self
  intro c hc
  exact collapseWs_no_ws _ c (collapseDash_mem _ c hc)

/-- Claim C2, counterexample: the claim requires leading and trailing
hyphens to be trimmed, so that no identifier has a hyphen immediately
before the appended suffix or at its start; but the trim of the code only
strips whitespace and runs after whitespace has become hyphens, so the
town name "Cherry Hill " (trailing space) yields "cherry-hill--nj" (a
hyphen immediately before the suffix) and " Cherry Hill" (leading space)
yields "-cherry-hill-nj" (a hyphen at the start). -/
theorem slug_trim_counterexample :
    townSlug "Cherry Hill " = "cherry-hill--nj" ∧
      townSlug " Cherry Hill" = "-cherry-hill-nj" ∧
      ("cherry-hill--nj" : String) ≠ "cherry-hill-nj" :=
  ⟨by decide, by decide, by decide⟩

/-- Claim C2 as amended: identifier derivation strips a trailing
"Township" / "Borough" / "City" suffix word case-insensitively, lowercases
the remainder, removes every character that is not a lowercase letter,
digit, whitespace or hyphen, collapses whitespace runs to a single
hyphen, collapses hyphen runs to one, and appends "-nj"; leading and
trailing hyphens are NOT trimmed (the trim step strips only whitespace
and runs after whitespace has been replaced, so it is a no-op).  "Cherry
Hill Township" still yields "cherry-hill-nj" and "Wildwood City" yields
"wildwood-nj". -/
theorem slug_amended :
    (∀ name, townSlug name = slugifyNoTrim (cleanTownName name) ++ "-nj") ∧
      townSlug "Cherry Hill Township" = "cherry-hill-nj" ∧
      townSlug "Wildwood City" = "wildwood-nj" :=
  ⟨fun name => by rw [townSlug, slugify_eq_noTrim], by decide, by decide⟩

/-- Helper: an association-list lookup misses when no key equals the
looked-up value. -/
theorem lookup_eq_none_of_forall {β : Type} (m : List (String × β))
    (v : String) (h : ∀ p ∈ m, p.1 ≠ v) : m.lookup v = none := by
  induction m with
  | nil => rfl
  | cons p ps ih =>
    obtain ⟨k, b⟩ := p
    rw [List.lookup_cons]
    have hk : (v == k) = false := by
      simp only [beq_eq_false_iff_ne]
      exact fun hv =>
        h (k, b) (List.mem_cons_self _ _) (by simpa using hv.symm)
    rw [hk]
    exact ih (fun q hq => h q (List.mem_cons_of_mem _ hq))

/-- Helper: a value outside the key set of a table is not found by
`jsLookup`. -/
theorem jsLookup_eq_none (m : List (String × String)) (v : String)
    (h : v ∉ m.map Prod.fst) : jsLookup m v = none := by
  apply lookup_eq_none_of_forall
  intro p hp hpv
  exact h (hpv ▸ List.mem_map_of_mem Prod.fst (List.mem_reverse.mp hp))

set_option maxRecDepth 100000 in
/-- Helper: the two static category tables define the same value-to-label
mapping (the duplicate keys of the single-town table repeat the same
labels, so last-binding-wins lookup agrees with the batch table on every
value). -/
theorem categoryMap_ext (v : String) :
    jsLookup categoryMap v = jsLookup categoryMap2 v := by
  by_cases h : v ∈ (categoryMap.map Prod.fst) ++ (categoryMap2.map Prod.fst)
  · revert h
    revert v
    decide
  · rw [List.mem_append] at h
    push_neg at h
    rw [jsLookup_eq_none categoryMap v h.1, jsLookup_eq_none categoryMap2 v h.2]

/-- Helper: the placeholder value "yes" is a key of neither category
table. -/
theorem yes_notin_tables :
    jsLookup categoryMap "yes" = none ∧ jsLookup categoryMap2 "yes" = none := by
  constructor
  · decide
  · decide

/-- Helper: the batch-mode classifier loop returns the category derived
from the first usable (non-empty, non-"yes") value among the examined
keys, and the fallback "Business" when there is none. -/
theorem getCatAux_eq_find (tags : Tags) (ks : List String) :
    getCatAux tags ks =
      match (ks.map tags).find? (fun v => !(v == "") && !(v == "yes")) with
      | some v => deriveCat v
      | none => "Business" := by
  induction ks with
  | nil => rfl
  | cons k ks ih =>
    rw [List.map_cons, List.find?_cons]
    by_cases h1 : tags k = ""
    · have hp : (!(tags k == "") && !(tags k == "yes")) = false := by simp [h1]
      simp only [hp]
      rw [← ih]
      simp [getCatAux, h1]
    · by_cases h2 : tags k = "yes"
      · have hp : (!(tags k == "") && !(tags k == "yes")) = false := by
          simp [h2]
        simp only [hp]
        rw [← ih]
        simp [getCatAux, h1, h2]
      · have hp : (!(tags k == "") && !(tags k == "yes")) = true := by
          simp [h1, h2]
        simp only [hp]
        simp [getCatAux, h1, h2]

/-- Helper: the batch-mode and single-town classifier loops agree on
every key list, because "yes" is in neither table and the tables agree. -/
theorem getCatAux_eq_getCatAux2 (tags : Tags) :
    ∀ ks, getCatAux tags ks = getCatAux2 tags ks := by
  intro ks
  induction ks with
  | nil => rfl
  | cons k ks ih =>
    by_cases h1 : tags k = ""
    · simp [getCatAux, getCatAux2, h1, ih]
    · by_cases h2 : tags k = "yes"
      · simp [getCatAux, getCatAux2, h1, h2, ih, yes_notin_tables.2]
      · simp only [getCatAux, getCatAux2, if_neg h1, if_neg h2, deriveCat]
        rw [categoryMap_ext (tags k)]

/-- Claim C3, counterexample: with shop = "yes" and amenity = "business"
the claim's hypotheses hold (the highest-priority present key has the
literal value "yes", a lower-priority key has a non-empty value other
than "yes"), yet the classifier returns the string "Business" — equal to
the fallback label — because the unrecognized value "business" is
capitalized to exactly that string.  The claim asserts the result is
never "Business". -/
theorem category_business_counterexample :
    firstPresentKey tagsYesBusiness = some "shop" ∧
      tagsYesBusiness "shop" = "yes" ∧
      tagsYesBusiness "amenity" = "business" ∧
      tagsYesBusiness "amenity" ≠ "yes" ∧
      getCategory tagsYesBusiness = "Business" := by
  refine ⟨by decide, by decide, by decide, by decide, by decide⟩

/-- Claim C3 as amended: when the highest-priority present key among
shop, amenity, office, craft, tourism, healthcare has the literal value
"yes", the classifier skips it and returns the category derived (table
label, else capitalization) from the first key in that order whose value
is non-empty and not "yes"; the no-usable-value fallback branch is not
taken, though the derived string can coincide with "Business" when the
lower-priority value is literally "business". -/
theorem category_yes_skip (tags : Tags) (k v : String)
    (_hk : firstPresentKey tags = some k) (_hy : tags k = "yes")
    (hv : firstUsableVal tags = some v) :
    getCategory tags = deriveCat v := by
  rw [getCategory, getCatAux_eq_find]
  rw [firstUsableVal] at hv
  simp [hv]

/-- Witness for the amended C3 theorem at a concrete tag mapping:
shop = "yes" is skipped and amenity = "deli" yields "Deli". -/
theorem category_yes_skip_witness :
    firstPresentKey tagsYesDeli = some "shop" ∧
      tagsYesDeli "shop" = "yes" ∧
      firstUsableVal tagsYesDeli = some "deli" ∧
      getCategory tagsYesDeli = deriveCat "deli" ∧ deriveCat "deli" = "Deli" :=
  ⟨by decide, by decide, by decide,
    category_yes_skip tagsYesDeli "shop" "deli" (by decide) (by decide)
      (by decide),
    by decide⟩

/-- Claim C4, counterexample: the claim says an unrecognized value is
returned with its first character uppercased and EVERY underscore
replaced by a space, which on the value "_foo" gives " foo"; the code
only replaces underscores after the first character (`slice(1)`), and
uppercasing leaves an underscore unchanged, so the classifier returns
"_foo" instead. -/
theorem category_underscore_counterexample :
    tagsUnderscore "shop" = "_foo" ∧
      jsLookup categoryMap "_foo" = none ∧
      getCategory tagsUnderscore = "_foo" ∧
      ("_foo" : String) ≠ " foo" := by
  refine ⟨by decide, by decide, by decide, by decide⟩

/-- Claim C4 as amended: the classifier considers shop, amenity, office,
craft, tourism, healthcare in that order; for the first key with a usable
(non-empty, non-"yes") value it returns the table label when the value is
a key of the static table, and otherwise the value with its first
character uppercased and every underscore AFTER the first character
replaced by a space (a leading underscore is kept, so "foo_bar" still
yields "Foo bar"); when no key yields a usable value it returns
"Business". -/
theorem category_classifier_amended :
    (∀ tags, getCategory tags =
        match firstUsableVal tags with
        | some v => deriveCat v
        | none => "Business") ∧
      getCategory (fun k => if k = "shop" then "deli" else "") = "Deli" ∧
      getCategory (fun k => if k = "shop" then "foo_bar" else "") = "Foo bar" ∧
      getCategory (fun _ => "") = "Business" :=
  ⟨fun tags => getCatAux_eq_find tags tagTypes, by decide, by decide, by decide⟩

/-- Claim C10: the batch-mode classifier (which tests for "yes" before
the table lookup, over the batch table) and the single-town classifier
(which looks up first, over the single-town table with its duplicate
keys) are extensionally equal, because "yes" is a key of neither table
and the two tables — later duplicate key definitions overwriting earlier
ones — define the same value-to-label mapping. -/
theorem category_implementations_agree :
    (∀ tags, getCategory tags = getCategory2 tags) ∧
      jsLookup categoryMap "yes" = none ∧
      jsLookup categoryMap2 "yes" = none ∧
      (∀ v, jsLookup categoryMap v = jsLookup categoryMap2 v) :=
  ⟨fun tags => getCatAux_eq_getCatAux2 tags tagTypes,
    yes_notin_tables.1, yes_notin_tables.2, categoryMap_ext⟩

/-- Helper: closed form of the address formatter — first segment from the
house number and street when both are present, the street alone when only
it is present, nothing otherwise; then the town and "NJ"; a present
postcode is glued (space-separated) onto the last segment instead of
becoming a new ", "-separated segment. -/
theorem formatAddress_spec (town : String) (tags : Tags) :
    formatAddress town tags =
      (if tags "addr:housenumber" ≠ "" ∧ tags "addr:street" ≠ "" then
        tags "addr:housenumber" ++ " " ++ tags "addr:street" ++ ", "
      else if tags "addr:street" ≠ "" then tags "addr:street" ++ ", "
      else "")
      ++ town ++ ", NJ"
      ++ (if tags "addr:postcode" ≠ "" then " " ++ tags "addr:postcode"
          else "") := by
  by_cases h1 : tags "addr:housenumber" = "" <;>
    by_cases h2 : tags "addr:street" = "" <;>
      by_cases h3 : tags "addr:postcode" = "" <;>
        · apply String.ext
          simp [formatAddress, appendToLast, h1, h2, h3, String.intercalate,
            String.intercalate.go, String.data_append]

/-- Claim C5: the address formatter emits house number and street (both
present), the street alone (only it present), or no first segment; then
the town display name and the state abbreviation; a postal code is
appended space-separated to the last segment rather than as a new
segment; segments are joined with ", ".  And the pipeline maps the deli
example element in town "Trenton" to the record with category "Deli",
address "12 Main St, Trenton, NJ 08608" and phone "(609) 555-1234". -/
theorem address_format_and_pipeline_example :
    (∀ town tags, formatAddress town tags =
        (if tags "addr:housenumber" ≠ "" ∧ tags "addr:street" ≠ "" then
          tags "addr:housenumber" ++ " " ++ tags "addr:street" ++ ", "
        else if tags "addr:street" ≠ "" then tags "addr:street" ++ ", "
        else "")
        ++ town ++ ", NJ"
        ++ (if tags "addr:postcode" ≠ "" then " " ++ tags "addr:postcode"
            else "")) ∧
      processElements "Trenton" [joeTags] = [joeBusiness] := by
  constructor
  · exact formatAddress_spec
  · show sortBusinesses _ _ = _
    rw [show dedupFirstBy bkey []
          ((([joeTags].filter (fun t => !(t "name" == ""))).filter
            postcodeOk).map (mapElement "Trenton"))
        = [mapElement "Trenton" joeTags] from by decide]
    rw [sortBusinesses, List.mergeSort_singleton]
    decide

/-- Helper: every record kept by the first-occurrence deduplication has a
key outside the seen set and is the first record of the input with its
key. -/
theorem dedup_mem_first {α β : Type} [DecidableEq β] (key : α → β) :
    ∀ (l : List α) (seen : List β) (b : α), b ∈ dedupFirstBy key seen l →
      key b ∉ seen ∧ l.find? (fun c => decide (key c = key b)) = some b := by
  intro l
  induction l with
  | nil => intro seen b hb; simp [dedupFirstBy] at hb
  | cons x xs ih =>
    intro seen b hb
    by_cases hx : key x ∈ seen
    · rw [dedupFirstBy, if_pos hx] at hb
      obtain ⟨h1, h2⟩ := ih seen b hb
      refine ⟨h1, ?_⟩
      rw [List.find?_cons]
      have hne : decide (key x = key b) = false :=
        decide_eq_false (fun he => h1 (he ▸ hx))
      rw [hne]
      exact h2
    · rw [dedupFirstBy, if_neg hx] at hb
      rcases List.mem_cons.mp hb with rfl | hb'
      · refine ⟨hx, ?_⟩
        rw [List.find?_cons]
        have hbe : decide (key b = key b) = true := decide_eq_true rfl
        rw [hbe]
      · obtain ⟨h1, h2⟩ := ih (key x :: seen) b hb'
        have hne : key b ≠ key x := fun he => h1 (by simp [he])
        refine ⟨fun hs => h1 (List.mem_cons_of_mem _ hs), ?_⟩
        rw [List.find?_cons]
        have hxb : decide (key x = key b) = false :=
          decide_eq_false (fun he => hne he.symm)
        rw [hxb]
        exact h2

/-- Helper: the keys of the deduplicated list are pairwise distinct. -/
theorem dedup_keys_nodup {α β : Type} [DecidableEq β] (key : α → β) :
    ∀ (l : List α) (seen : List β),
      ((dedupFirstBy key seen l).map key).Nodup := by
  intro l
  induction l with
  | nil => intro seen; simp [dedupFirstBy]
  | cons x xs ih =>
    intro seen
    by_cases hx : key x ∈ seen
    · rw [dedupFirstBy, if_pos hx]; exact ih seen
    · rw [dedupFirstBy, if_neg hx]
      simp only [List.map_cons, List.nodup_cons]
      refine ⟨?_, ih (key x :: seen)⟩
      intro hmem
      rw [List.mem_map] at hmem
      obtain ⟨b, hb, hkb⟩ := hmem
      exact (dedup_mem_first key xs (key x :: seen) b hb).1 (by simp [hkb])

/-- Helper: every input record's key either was already seen or is
represented in the deduplicated output. -/
theorem dedup_covers {α β : Type} [DecidableEq β] (key : α → β) :
    ∀ (l : List α) (seen : List β) (b : α), b ∈ l →
      key b ∈ seen ∨ ∃ b', b' ∈ dedupFirstBy key seen l ∧ key b' = key b := by
  intro l
  induction l with
  | nil => intro seen b hb; simp at hb
  | cons x xs ih =>
    intro seen b hb
    rcases List.mem_cons.mp hb with rfl | hb'
    · by_cases hx : key b ∈ seen
      · exact Or.inl hx
      · refine Or.inr ⟨b, ?_, rfl⟩
        rw [dedupFirstBy, if_neg hx]
        exact List.mem_cons_self _ _
    · by_cases hx : key x ∈ seen
      · rw [dedupFirstBy, if_pos hx]
        exact ih seen b hb'
      · rw [dedupFirstBy, if_neg hx]
        rcases ih (key x :: seen) b hb' with hin | ⟨b', hb'', hk⟩
        · rcases List.mem_cons.mp hin with heq | hin'
          · exact Or.inr ⟨x, List.mem_cons_self _ _, heq.symm⟩
          · exact Or.inl hin'
        · exact Or.inr ⟨b', List.mem_cons_of_mem _ hb'', hk⟩

/-- Claim C6: the deduplication step keys on (name, address): the kept
records have pairwise distinct keys, every kept record is the first
record in fetch order with its key, every input key is represented, and
on a two-element list an equal key keeps only the first record while
distinct keys keep both. -/
theorem dedup_by_name_address :
    (∀ l : List Business, ((dedupFirstBy bkey [] l).map bkey).Nodup) ∧
      (∀ (l : List Business) (b : Business), b ∈ dedupFirstBy bkey [] l →
        l.find? (fun c => decide (bkey c = bkey b)) = some b) ∧
      (∀ (l : List Business) (b : Business), b ∈ l →
        ∃ b', b' ∈ dedupFirstBy bkey [] l ∧ bkey b' = bkey b) ∧
      (∀ b1 b2 : Business, bkey b1 = bkey b2 →
        dedupFirstBy bkey [] [b1, b2] = [b1]) ∧
      (∀ b1 b2 : Business, bkey b1 ≠ bkey b2 →
        dedupFirstBy bkey [] [b1, b2] = [b1, b2]) := by
  refine ⟨fun l => dedup_keys_nodup bkey l [],
    fun l b hb => (dedup_mem_first bkey l [] b hb).2,
    fun l b hb => (dedup_covers bkey l [] b hb).resolve_left (by simp),
    fun b1 b2 h => ?_, fun b1 b2 h => ?_⟩
  · simp [dedupFirstBy, h]
  · simp [dedupFirstBy, Ne.symm h]

/-- Witness for C6: a duplicate (name, address) pair collapses to one
record; the same name at a different address keeps both records. -/
theorem dedup_by_name_address_witness :
    bkey bizDupA = bkey bizDupB ∧
      dedupFirstBy bkey [] [bizDupA, bizDupB] = [bizDupA] ∧
      bkey bizDupA ≠ bkey bizDiff ∧
      dedupFirstBy bkey [] [bizDupA, bizDiff] = [bizDupA, bizDiff] :=
  ⟨by decide,
    dedup_by_name_address.2.2.2.1 bizDupA bizDupB (by decide),
    by decide,
    dedup_by_name_address.2.2.2.2 bizDupA bizDiff (by decide)⟩

/-- Helper: with a sign-consistent comparator the business ordering is
total. -/
theorem bizCmp_le_total (cmp : String → String → Int)
    (hsign : ∀ a b, (cmp a b < 0 ↔ cmp b a > 0) ∧ (cmp a b = 0 ↔ cmp b a = 0)) :
    ∀ a b : Business, bizCmp cmp a b ≤ 0 ∨ bizCmp cmp b a ≤ 0 := by
  intro a b
  simp only [bizCmp]
  rcases lt_trichotomy (cmp a.category b.category) 0 with hc | hc | hc
  · left
    rw [if_pos hc.ne]
    exact hc.le
  · have hc' : cmp b.category a.category = 0 := (hsign _ _).2.mp hc
    rw [if_neg (fun h => h hc), if_neg (fun h => h hc')]
    rcases lt_trichotomy (cmp a.name b.name) 0 with hn | hn | hn
    · exact Or.inl hn.le
    · exact Or.inl hn.le
    · exact Or.inr ((hsign b.name a.name).1.mpr hn).le
  · right
    have hc' : cmp b.category a.category < 0 := (hsign _ _).1.mpr hc
    rw [if_pos hc'.ne]
    exact hc'.le

/-- Helper: with a sign-consistent, transitive comparator the business
ordering is transitive. -/
theorem bizCmp_le_trans (cmp : String → String → Int)
    (hsign : ∀ a b, (cmp a b < 0 ↔ cmp b a > 0) ∧ (cmp a b = 0 ↔ cmp b a = 0))
    (htrans : ∀ a b c, cmp a b ≤ 0 → cmp b c ≤ 0 → cmp a c ≤ 0) :
    ∀ a b c : Business,
      bizCmp cmp a b ≤ 0 → bizCmp cmp b c ≤ 0 → bizCmp cmp a c ≤ 0 := by
  intro a b c h1 h2
  simp only [bizCmp] at h1 h2 ⊢
  by_cases hab : cmp a.category b.category = 0
  · rw [if_neg (fun h => h hab)] at h1
    by_cases hbc : cmp b.category c.category = 0
    · rw [if_neg (fun h => h hbc)] at h2
      have hac : cmp a.category c.category = 0 := by
        have hle : cmp a.category c.category ≤ 0 :=
          htrans _ _ _ (le_of_eq hab) (le_of_eq hbc)
        rcases lt_or_eq_of_le hle with hlt | heq
        · exfalso
          have h3 : cmp c.category a.category > 0 := (hsign _ _).1.mp hlt
          have h4 : cmp c.category b.category = 0 := (hsign _ _).2.mp hbc
          have h5 : cmp b.category a.category = 0 := (hsign _ _).2.mp hab
          have h6 : cmp c.category a.category ≤ 0 :=
            htrans _ _ _ (le_of_eq h4) (le_of_eq h5)
          omega
        · exact heq
      rw [if_neg (fun h => h hac)]
      exact htrans _ _ _ h1 h2
    · rw [if_pos hbc] at h2
      have hbclt : cmp b.category c.category < 0 := lt_of_le_of_ne h2 hbc
      have haclt : cmp a.category c.category < 0 := by
        have hle : cmp a.category c.category ≤ 0 :=
          htrans _ _ _ (le_of_eq hab) h2
        rcases lt_or_eq_of_le hle with hlt | heq
        · exact hlt
        · exfalso
          have h3 : cmp c.category a.category = 0 := (hsign _ _).2.mp heq
          have h4 : cmp c.category b.category ≤ 0 :=
            htrans _ _ _ (le_of_eq h3) (le_of_eq hab)
          have h5 : cmp c.category b.category > 0 := (hsign _ _).1.mp hbclt
          omega
      rw [if_pos haclt.ne]
      exact haclt.le
  · rw [if_pos hab] at h1
    have hablt : cmp a.category b.category < 0 := lt_of_le_of_ne h1 hab
    by_cases hbc : cmp b.category c.category = 0
    · rw [if_neg (fun h => h hbc)] at h2
      have haclt : cmp a.category c.category < 0 := by
        have hle := htrans _ _ _ h1 (le_of_eq hbc)
        rcases lt_or_eq_of_le hle with hlt | heq
        · exact hlt
        · exfalso
          have h3 : cmp c.category a.category = 0 := (hsign _ _).2.mp heq
          have h4 : cmp b.category a.category > 0 := (hsign _ _).1.mp hablt
          have h5 : cmp b.category a.category ≤ 0 :=
            htrans _ _ _ (le_of_eq hbc) (le_of_eq h3)
          omega
      rw [if_pos haclt.ne]
      exact haclt.le
    · rw [if_pos hbc] at h2
      have hbclt : cmp b.category c.category < 0 := lt_of_le_of_ne h2 hbc
      have haclt : cmp a.category c.category < 0 := by
        have hle := htrans _ _ _ h1 h2
        rcases lt_or_eq_of_le hle with hlt | heq
        · exact hlt
        · exfalso
          have h3 : cmp c.category a.category = 0 := (hsign _ _).2.mp heq
          have h4 : cmp b.category a.category ≤ 0 :=
            htrans _ _ _ h2 (le_of_eq h3)
          have h5 : cmp b.category a.category > 0 := (hsign _ _).1.mp hablt
          omega
      rw [if_pos haclt.ne]
      exact haclt.le

/-- Helper: a nonpositive comparator verdict between two records is
exactly the ascending (category, name) ordering. -/
theorem bizLe_imp_catNameLe (cmp : String → String → Int) (a b : Business)
    (h : bizLe cmp a b = true) : catNameLe cmp a b := by
  rw [bizLe, decide_eq_true_eq] at h
  simp only [bizCmp] at h
  by_cases hab : cmp a.category b.category = 0
  · rw [if_neg (fun hh => hh hab)] at h
    exact Or.inr ⟨hab, h⟩
  · rw [if_pos hab] at h
    exact Or.inl (lt_of_le_of_ne h hab)

/-- Claim C7: for every sign-consistent and transitive locale comparator
and every raw element list, the business list produced by the per-town
pipeline is pairwise ascending by (category, name): the category strictly
precedes, or the categories tie and the names are in nondecreasing
comparator order. -/
theorem pipeline_sorted (cmp : String → String → Int)
    (hsign : ∀ a b, (cmp a b < 0 ↔ cmp b a > 0) ∧ (cmp a b = 0 ↔ cmp b a = 0))
    (htrans : ∀ a b c, cmp a b ≤ 0 → cmp b c ≤ 0 → cmp a c ≤ 0)
    (town : String) (els : List Tags) :
    List.Pairwise (catNameLe cmp) (processElementsWith cmp town els) := by
  have htr : ∀ x y z : Business,
      bizLe cmp x y = true → bizLe cmp y z = true → bizLe cmp x z = true := by
    intro x y z hxy hyz
    rw [bizLe, decide_eq_true_eq] at hxy hyz ⊢
    exact bizCmp_le_trans cmp hsign htrans x y z hxy hyz
  have htot : ∀ x y : Business, (bizLe cmp x y || bizLe cmp y x) = true := by
    intro x y
    rw [Bool.or_eq_true, bizLe, bizLe, decide_eq_true_eq, decide_eq_true_eq]
    exact bizCmp_le_total cmp hsign x y
  unfold processElementsWith sortBusinesses
  exact List.Pairwise.imp (fun h => bizLe_imp_catNameLe cmp _ _ h)
    (List.sorted_mergeSort htr htot _)

/-- Witness for C7 at a concrete comparator (the constant-zero
comparator, trivially sign-consistent and transitive) and the concrete
deli element list. -/
theorem pipeline_sorted_witness :
    List.Pairwise (catNameLe (fun _ _ => (0 : Int)))
      (processElementsWith (fun _ _ => (0 : Int)) "Trenton" [joeTags]) :=
  pipeline_sorted (fun _ _ => (0 : Int)) (fun _ _ => ⟨Iff.rfl, Iff.rfl⟩)
    (fun _ _ _ h _ => h) "Trenton" [joeTags]

/-- Claim C8: an empty or missing element list is an error exactly at the
town-list-discovery stage: `fetchNJTownsList` answers the fixed error on
a missing or empty element list and succeeds on any nonempty one, while
per-town extraction returns the empty business list — a valid, non-error
value — on a missing or empty element list. -/
theorem empty_result_stage_behavior :
    fetchNJTownsList none = Except.error "No towns found in NJ" ∧
      fetchNJTownsList (some []) = Except.error "No towns found in NJ" ∧
      (∀ els : List OsmElement, els ≠ [] →
        ∃ ts, fetchNJTownsList (some els) = Except.ok ts) ∧
      (∀ town, fetchBusinessesForTown town none = []) ∧
      (∀ town, fetchBusinessesForTown town (some []) = []) := by
  refine ⟨rfl, rfl, ?_, fun town => rfl, fun town => by
    show processElements town.displayName [] = []
    simp [processElements, processElementsWith, sortBusinesses, dedupFirstBy,
      List.mergeSort_nil]⟩
  intro els h
  refine ⟨townsPipeline els, ?_⟩
  rw [fetchNJTownsList]
  rw [if_neg (fun hlen => h (List.length_eq_zero.mp hlen))]

/-- Witness for C8: a singleton element list is nonempty and town-list
discovery succeeds on it. -/
theorem empty_result_stage_behavior_witness :
    (([sampleTownElement] : List OsmElement) ≠ []) ∧
      ∃ ts, fetchNJTownsList (some [sampleTownElement]) = Except.ok ts :=
  ⟨by simp, empty_result_stage_behavior.2.2.1 [sampleTownElement] (by simp)⟩

/-- Helper: folding the counter update over any outcome list adds the
outcome count to the three disjoint counters and the per-success business
counts to the business total. -/
theorem runBatch_counts (outs : List TownOutcome) :
    ∀ c : BatchCounters,
      ((outs.foldl stepCounters c).skipped
          + (outs.foldl stepCounters c).processed
          + (outs.foldl stepCounters c).errors
        = c.skipped + c.processed + c.errors + outs.length) ∧
      (outs.foldl stepCounters c).businesses
        = c.businesses + (outs.map outcomeBusinesses).sum := by
  induction outs with
  | nil => intro c; simp
  | cons o os ih =>
    intro c
    rw [List.foldl_cons]
    obtain ⟨h1, h2⟩ := ih (stepCounters c o)
    cases o with
    | skipped =>
      refine ⟨?_, ?_⟩
      · simp [stepCounters, List.length_cons] at h1 ⊢
        omega
      · simp [stepCounters, outcomeBusinesses, List.map_cons,
          List.sum_cons] at h2 ⊢
        omega
    | failure =>
      refine ⟨?_, ?_⟩
      · simp [stepCounters, List.length_cons] at h1 ⊢
        omega
      · simp [stepCounters, outcomeBusinesses, List.map_cons,
          List.sum_cons] at h2 ⊢
        omega
    | success n =>
      refine ⟨?_, ?_⟩
      · simp [stepCounters, List.length_cons] at h1 ⊢
        omega
      · simp [stepCounters, outcomeBusinesses, List.map_cons,
          List.sum_cons] at h2 ⊢
        omega

/-- Claim C9: over any sequence of per-town outcomes the three counters
partition the towns (skipped + processed + errored = total), the
total-businesses counter sums the business counts of the successful towns
only, and the five-figure summary block is a suffix of the run's log —
printed unconditionally, whatever the outcomes were. -/
theorem batch_counters_and_summary
    (townOutcomes : List (String × TownOutcome)) :
    ((runBatch (townOutcomes.map Prod.snd)).skipped
        + (runBatch (townOutcomes.map Prod.snd)).processed
        + (runBatch (townOutcomes.map Prod.snd)).errors
      = townOutcomes.length) ∧
      ((runBatch (townOutcomes.map Prod.snd)).businesses
        = ((townOutcomes.map Prod.snd).map outcomeBusinesses).sum) ∧
      (summaryLines townOutcomes.length
          (runBatch (townOutcomes.map Prod.snd))).IsSuffix
        (mainLog townOutcomes) := by
  obtain ⟨h1, h2⟩ := runBatch_counts (townOutcomes.map Prod.snd) ⟨0, 0, 0, 0⟩
  refine ⟨?_, ?_, ⟨_, rfl⟩⟩
  · rw [runBatch]
    simpa using h1
  · rw [runBatch]
    simpa using h2

end MainStreet
